import Mathlib

/-!
Verification development for the Python-testing execution bridge of the
certification-tool backend.

The embedded code comes from:
* `test_collections/sdk_tests/support/python_testing/models/test_case.py`
  (`PythonTestCase`: event handlers, `class_factory`, `__test_identifier`,
  `__class_name`, `execute`, `__call_function_from_name`, `create_test_steps`)
* `test_collections/sdk_tests/support/python_testing/sdk_python_tests.py`
  (`_init_test_suites`, `_parse_python_test_to_test_case_declaration`,
  `_parse_all_sdk_python_tests`)

Types and operations imported by that code from modules that are not part of
the provided sources (`app.test_engine.models.TestCase` / `TestStep`,
`python_test_models.PythonTest`, `matter_test_declarations`) are modelled
from the specification and marked as such in their doc comments.
-/

namespace CertBridge

/-- Modelled from the spec: status of one test step
(`app.test_engine.models.TestStep` is not part of the provided sources).
Spec section 3: `status ∈ {Pending, Completed, NotApplicable, Failed}`. -/
inductive StepStatus
  | pending
  | completed
  | notApplicable
  | failed
deriving DecidableEq

/-- Modelled from the spec: one test step, `label: string` plus a status
(`app.test_engine.models.TestStep`); a freshly constructed step is Pending. -/
structure TestStep where
  label : String
  status : StepStatus
deriving DecidableEq

/-- Modelled from the spec: one step of the parsed test metadata, carrying the
step label (`python_test_models.PythonTest` steps are not in the sources). -/
structure PythonTestStep where
  label : String
deriving DecidableEq

/-- Modelled from the spec: parsed test metadata
(`python_test_models.PythonTest`): name, free-text description, an
applicability tag set (PICS) and an ordered list of steps. -/
structure PythonTest where
  name : String
  description : String
  PICS : List String
  steps : List PythonTestStep
deriving DecidableEq

/-- Set the status of the step at index `i`; out-of-range indices leave the
list unchanged (used to embed `mark_as_completed` / `mark_as_not_applicable`
on the current step). -/
def setStatus : List TestStep → Nat → StepStatus → List TestStep
  | [], _, _ => []
  | s :: rest, 0, st => { s with status := st } :: rest
  | s :: rest, n + 1, st => s :: setStatus rest n st

/-- Mark the step at index `i` Completed only when it is still Pending
(the marking performed by `advance()` in the spec's step state machine). -/
def completePending : List TestStep → Nat → List TestStep
  | [], _ => []
  | s :: rest, 0 =>
    (if s.status = StepStatus.pending then { s with status := StepStatus.completed } else s) :: rest
  | s :: rest, n + 1 => s :: completePending rest n

/-- State of one `PythonTestCase` execution instance: the step list, the
cursor (`current_test_step_index`), the `test_stop_called` flag set by the
`test_stop` handler, and the `__runned` counter bumped by `step_unknown`. -/
structure PyCaseState where
  test_steps : List TestStep
  cursor : Nat
  test_stop_called : Bool
  runned : Nat
deriving DecidableEq

/-- Modelled from the spec: `advance()` of the step state machine
(`app.test_engine.models.TestCase.next_step` is not in the provided sources).
Spec section 4.2: marks the current step Completed if it was Pending, then
moves the cursor to the next step; once the list is exhausted it is a no-op. -/
def next_step (s : PyCaseState) : PyCaseState :=
  if s.cursor < s.test_steps.length then
    { s with
      test_steps := completePending s.test_steps s.cursor
      cursor := s.cursor + 1 }
  else s

/-- Handler `start(count)` of `PythonTestCase`: `pass`. -/
def start_h (s : PyCaseState) : PyCaseState := s

/-- Handler `stop(duration)` of `PythonTestCase`: if `test_stop_called` is not
set, mark the current step as completed. -/
def stop_h (s : PyCaseState) : PyCaseState :=
  if s.test_stop_called then s
  else { s with test_steps := setStatus s.test_steps s.cursor StepStatus.completed }

/-- Handler `test_start(filename, name, count)` of `PythonTestCase`:
`self.next_step()`. -/
def test_start_h (s : PyCaseState) : PyCaseState := next_step s

/-- Handler `test_stop(exception, duration)` of `PythonTestCase`: set
`test_stop_called` and mark the current step as completed. -/
def test_stop_h (s : PyCaseState) : PyCaseState :=
  { s with
    test_stop_called := true
    test_steps := setStatus s.test_steps s.cursor StepStatus.completed }

/-- Handler `step_skipped(name, expression)` of `PythonTestCase`: mark the
current step NotApplicable ("Test step skipped"), then `self.next_step()`. -/
def step_skipped_h (s : PyCaseState) : PyCaseState :=
  next_step { s with test_steps := setStatus s.test_steps s.cursor StepStatus.notApplicable }

/-- Handler `step_start(name)` of `PythonTestCase`: `pass`. -/
def step_start_h (s : PyCaseState) : PyCaseState := s

/-- Handler `step_success(logger, logs, duration, request)` of
`PythonTestCase`: `self.next_step()`. -/
def step_success_h (s : PyCaseState) : PyCaseState := next_step s

/-- Handler `step_failure(logger, logs, duration, request, received)` of
`PythonTestCase`: `self.next_step()`. -/
def step_failure_h (s : PyCaseState) : PyCaseState := next_step s

/-- Handler `step_unknown()` of `PythonTestCase`: `self.__runned += 1`. -/
def step_unknown_h (s : PyCaseState) : PyCaseState :=
  { s with runned := s.runned + 1 }

/-- `PythonTestCase.create_test_steps`: start from the synthetic
`TestStep("Start Python test")` and append one `TestStep(step.label)` per
metadata step, in order (the Python `for` loop appends one at a time). -/
def create_test_steps (steps : List PythonTestStep) : List TestStep :=
  steps.foldl
    (fun acc st => acc ++ [TestStep.mk st.label StepStatus.pending])
    [TestStep.mk "Start Python test" StepStatus.pending]

/-- A fresh execution instance for a parsed test: step list built by
`create_test_steps`, cursor at the synthetic start step, flags cleared
(matching `PythonTestCase.__init__`). -/
def initState (test : PythonTest) : PyCaseState :=
  { test_steps := create_test_steps test.steps
    cursor := 0
    test_stop_called := false
    runned := 0 }

/-- Characters excluded by the character class `[^\s\]]` of the title pattern
`TC-[^\s\]]*` in `PythonTestCase.__test_identifier`: Python `\s` whitespace
(ASCII range) or a closing bracket. -/
def isStopChar (c : Char) : Bool :=
  c = ' ' || c = '\t' || c = '\n' || c = '\r' || c = Char.ofNat 11 || c = Char.ofNat 12 || c = ']'

/-- Characters of the literal part `TC-` of the title pattern. -/
def tcTitleChars : List Char := ['T', 'C', '-']

/-- Embedding of `re.search(r"TC-[^\s\]]*", name)` in
`PythonTestCase.__test_identifier`: scan left to right for the first position
where the pattern matches; a match is the literal `TC-` followed by the
greedy (maximal) run of characters that are neither whitespace nor `]`. -/
def regex_search_tc : List Char → Option (List Char)
  | [] => none
  | c :: cs =>
    if tcTitleChars.isPrefixOf (c :: cs) then
      some (tcTitleChars ++ ((c :: cs).drop 3).takeWhile (fun d => !(isStopChar d)))
    else regex_search_tc cs

/-- `PythonTestCase.__test_identifier`: return the regex match when one
exists, otherwise the full name unchanged. -/
def test_identifier (name : String) : String :=
  match regex_search_tc name.toList with
  | some tok => String.mk tok
  | none => name

/-- Stated from the claim's words, to be compared with the source embedding
`regex_search_tc`: the canonical test-id token sits at the first suffix of
the name that begins with `TC-`, and continues up to (not including) the
first whitespace character or closing bracket; a name with no such suffix
has no token. -/
def canonical_token_spec (cs : List Char) : Option (List Char) :=
  (cs.tails.find? (fun t => tcTitleChars.isPrefixOf t)).map
    (fun t => tcTitleChars ++ (t.drop 3).takeWhile (fun d => !(isStopChar d)))

/-- Scanner embedding `re.sub("[^0-9a-zA-Z]+", "_", identifier)` of
`PythonTestCase.__class_name`: the flag records whether the scanner is inside
a non-alphanumeric run whose single replacement `_` was already emitted. -/
def sub_aux : Bool → List Char → List Char
  | _, [] => []
  | inRun, c :: cs =>
    if c.isAlphanum then c :: sub_aux false cs
    else if inRun then sub_aux true cs
    else '_' :: sub_aux true cs

/-- Replacement performed by `PythonTestCase.__class_name`: every maximal run
of non-alphanumeric characters becomes one underscore. -/
def sub_non_alnum (cs : List Char) : List Char :=
  sub_aux false cs

/-- `PythonTestCase.__class_name`: replace all non-alphanumeric characters
with `_` to make a valid class name. -/
def class_name (identifier : String) : String :=
  String.mk (sub_non_alnum identifier.toList)

/-- Metadata dictionary stored on the class synthesized by
`PythonTestCase.class_factory`. -/
structure TypeMetadata where
  public_id : String
  version : String
  title : String
  description : String
deriving DecidableEq

/-- Class attributes of the subclass produced by
`PythonTestCase.class_factory` via `type(class_name, (cls,), {...})`. -/
structure PythonTestCaseType where
  type_name : String
  python_test : PythonTest
  python_test_version : String
  chip_tool_test_identifier : String
  metadata : TypeMetadata
deriving DecidableEq

/-- `PythonTestCase.class_factory(test, python_test_version)`: derive the
identifier from the test name, the class name from the identifier, set
`title = identifier`, and populate the class attributes and metadata. -/
def class_factory (test : PythonTest) (python_test_version : String) : PythonTestCaseType :=
  let identifier := test_identifier test.name
  let cname := class_name identifier
  let title := identifier
  { type_name := cname
    python_test := test
    python_test_version := python_test_version
    chip_tool_test_identifier := cname
    metadata :=
      { public_id := identifier
        version := "0.0.1"
        title := title
        description := test.description } }

/-- Errors that the dispatch helper `__call_function_from_name` can raise.
The code raises Python `AttributeError` and `TypeError`; the
`protocolError` constructor exists only to state the spec's error taxonomy
(section 7) and is never produced by the embedded code. -/
inductive PyError
  | attributeError (func_name : String)
  | typeError (func_name : String)
  | protocolError (func_name : String)
deriving DecidableEq

/-- Shape of an attribute found by `getattr` on a `PythonTestCase` instance:
a bound method (callable), a truthy non-callable value, or a falsy
non-callable value (Python `if not func` treats falsy attributes like a
missing one). -/
inductive AttrKind
  | callableMethod
  | truthyValue
  | falsyValue
deriving DecidableEq

/-- Attribute surface of a fresh `PythonTestCase` instance as declared in
`test_case.py`: the nine event handler methods, the other methods of the
class, and the non-callable instance/class attributes
(`test_stop_called` is `False` on a fresh instance, hence falsy). -/
def pythonTestCase_attrs : List (String × AttrKind) :=
  [("start", AttrKind.callableMethod),
   ("stop", AttrKind.callableMethod),
   ("test_start", AttrKind.callableMethod),
   ("test_stop", AttrKind.callableMethod),
   ("step_skipped", AttrKind.callableMethod),
   ("step_start", AttrKind.callableMethod),
   ("step_success", AttrKind.callableMethod),
   ("step_failure", AttrKind.callableMethod),
   ("step_unknown", AttrKind.callableMethod),
   ("pics", AttrKind.callableMethod),
   ("class_factory", AttrKind.callableMethod),
   ("setup", AttrKind.callableMethod),
   ("cleanup", AttrKind.callableMethod),
   ("execute", AttrKind.callableMethod),
   ("create_test_steps", AttrKind.callableMethod),
   ("python_test", AttrKind.truthyValue),
   ("python_test_version", AttrKind.truthyValue),
   ("chip_tool", AttrKind.truthyValue),
   ("test_stop_called", AttrKind.falsyValue)]

/-- `getattr(obj, func_name, None)` on a fresh `PythonTestCase` instance,
restricted to the attributes declared in `test_case.py`. -/
def instance_getattr (func_name : String) : Option AttrKind :=
  (pythonTestCase_attrs.find? (fun p => p.1 == func_name)).map Prod.snd

/-- `PythonTestCase.__call_function_from_name`: `getattr` the name; a missing
attribute — and, because of the `if not func` test, also a falsy one — raises
`AttributeError`; a non-callable attribute raises `TypeError`; otherwise the
bound method is invoked. -/
def call_function_from_name (func_name : String) : Except PyError Unit :=
  match instance_getattr func_name with
  | none => Except.error (PyError.attributeError func_name)
  | some AttrKind.falsyValue => Except.error (PyError.attributeError func_name)
  | some AttrKind.truthyValue => Except.error (PyError.typeError func_name)
  | some AttrKind.callableMethod => Except.ok ()

/-- The fixed event vocabulary of the bridge: the nine event handler names of
`PythonTestCase` (spec section 4.3 names translated to the code's names). -/
def event_vocabulary : List String :=
  ["start", "stop", "test_start", "test_stop", "step_skipped", "step_start",
   "step_success", "step_failure", "step_unknown"]

/-- Whether a dispatch outcome is the spec's `ProtocolError`. -/
def isProtocolError : Except PyError Unit → Bool
  | Except.error (PyError.protocolError _) => true
  | _ => false

/-- Points of `PythonTestCase.execute` where an exception can be injected, in
the statement order of the `try` block: `BaseManager.register`, the
`BaseManager(...)` constructor that binds the local `manager`,
`manager.start()`, creating the runner hooks proxy, launching the runner via
`chip_tool.send_command`, and the event drain loop. -/
inductive ExecStage
  | managerRegister
  | managerCtor
  | managerStart
  | hooksCreate
  | runnerLaunch
  | drainLoop
deriving DecidableEq

/-- State relevant to the `finally` clause of `PythonTestCase.execute`:
whether the local variable `manager` was assigned, whether `manager.start()`
completed (`BaseManager` only gains its `shutdown` attribute inside a
successful `start()`), and how many times shutdown ran. -/
structure ExecState where
  manager_bound : Bool
  manager_started : Bool
  shutdown_calls : Nat
deriving DecidableEq

/-- Embedding of the `try` block of `PythonTestCase.execute`: run the
statements in order until the injected failure point (if any), tracking when
the local `manager` becomes bound and started; the second component records
whether the block raised. -/
def execute_try_body (fail : Option ExecStage) : ExecState × Bool :=
  let s : ExecState := ⟨false, false, 0⟩
  if fail = some ExecStage.managerRegister then (s, true)
  else if fail = some ExecStage.managerCtor then (s, true)
  else
    let s := { s with manager_bound := true }
    if fail = some ExecStage.managerStart then (s, true)
    else
      let s := { s with manager_started := true }
      if fail = some ExecStage.hooksCreate then (s, true)
      else if fail = some ExecStage.runnerLaunch then (s, true)
      else if fail = some ExecStage.drainLoop then (s, true)
      else (s, false)

/-- Outcome of the `finally` clause: shutdown ran, or the clause itself
raised (`NameError` when the local `manager` was never assigned,
`AttributeError` when `BaseManager.start` never completed and the instance
has no `shutdown` attribute). -/
inductive TeardownOutcome
  | shutdownOk
  | nameError
  | attributeError
deriving DecidableEq

/-- Embedding of the `finally: manager.shutdown()` clause of
`PythonTestCase.execute` under Python name-binding semantics. -/
def finally_shutdown (s : ExecState) : ExecState × TeardownOutcome :=
  if s.manager_bound = false then (s, TeardownOutcome.nameError)
  else if s.manager_started = false then (s, TeardownOutcome.attributeError)
  else ({ s with shutdown_calls := s.shutdown_calls + 1 }, TeardownOutcome.shutdownOk)

/-- `PythonTestCase.execute` with a failure injected at `fail` (or none):
run the `try` block, then the `finally` clause. -/
def execute_model (fail : Option ExecStage) : ExecState × TeardownOutcome :=
  finally_shutdown (execute_try_body fail).1

/-- Modelled from the spec: one test-case declaration
(`matter_test_declarations.PythonCaseDeclaration` is not in the provided
sources): the parsed test plus the python test version. -/
structure PythonCaseDeclaration where
  test : PythonTest
  python_test_version : String
deriving DecidableEq

/-- Modelled from the spec: a suite declaration
(`matter_test_declarations.MatterSuiteDeclaration` is not in the provided
sources): name, family/type tags, version, and its list of test cases. -/
structure MatterSuiteDeclaration where
  name : String
  suite_family_type : String
  suite_type : String
  version : String
  test_cases : List PythonCaseDeclaration
deriving DecidableEq

/-- Modelled from the spec: `MatterSuiteDeclaration.add_test_case` appends a
test case declaration to the suite. -/
def add_test_case (s : MatterSuiteDeclaration) (tc : PythonCaseDeclaration) :
    MatterSuiteDeclaration :=
  { s with test_cases := s.test_cases ++ [tc] }

/-- `_init_test_suites`: the single Automated suite, empty, carrying the
python test version (the source returns a one-entry dict keyed by
`SuiteType.AUTOMATED`). -/
def init_test_suites (python_test_version : String) : MatterSuiteDeclaration :=
  { name := "Python Testing Suite"
    suite_family_type := "PYTHON"
    suite_type := "AUTOMATED"
    version := python_test_version
    test_cases := [] }

/-- Log line emitted by `_parse_all_sdk_python_tests` when parsing a file
raises `PythonTestParserException`. -/
def log_parse_error (python_test_file e : String) : String :=
  "Error while parsing Python File: " ++ python_test_file ++ " Error:" ++ e

/-- `_parse_python_test_to_test_case_declaration`: parse the file and wrap
the result in a declaration; the parser collaborator is passed in as a
function, errors modelled as `Except` values carrying the
`PythonTestParserException` message. -/
def parse_python_test_to_test_case_declaration
    (parse_python_test : String → Except String PythonTest)
    (python_test_path python_test_version : String) :
    Except String PythonCaseDeclaration :=
  (parse_python_test python_test_path).map
    (fun t => PythonCaseDeclaration.mk t python_test_version)

/-- Loop body of `_parse_all_sdk_python_tests`: on success add the test case
to the Automated suite; on `PythonTestParserException` log the file and
continue with the next one. -/
def parse_fold_step (parse_python_test : String → Except String PythonTest)
    (python_test_version : String)
    (acc : MatterSuiteDeclaration × List String) (python_test_file : String) :
    MatterSuiteDeclaration × List String :=
  match parse_python_test_to_test_case_declaration parse_python_test
      python_test_file python_test_version with
  | Except.ok tc => (add_test_case acc.1 tc, acc.2)
  | Except.error e => (acc.1, acc.2 ++ [log_parse_error python_test_file e])

/-- `_parse_all_sdk_python_tests`: fold the loop body over the test files
starting from the empty Automated suite; the result is the suite list (the
dict's values) together with the error log. -/
def parse_all_sdk_python_tests (parse_python_test : String → Except String PythonTest)
    (python_test_files : List String) (python_test_version : String) :
    List MatterSuiteDeclaration × List String :=
  let result := python_test_files.foldl
    (parse_fold_step parse_python_test python_test_version)
    (init_test_suites python_test_version, [])
  ([result.1], result.2)

end CertBridge

namespace CertBridge

theorem setStatus_length (l : List TestStep) (i : Nat) (st : StepStatus) :
    (setStatus l i st).length = l.length := by
  induction l generalizing i with
  | nil => rfl
  | cons s rest ih =>
    cases i with
    | zero => rfl
    | succ n => simp [setStatus, ih]

theorem completePending_length (l : List TestStep) (i : Nat) :
    (completePending l i).length = l.length := by
  induction l generalizing i with
  | nil => rfl
  | cons s rest ih =>
    cases i with
    | zero => rfl
    | succ n => simp [completePending, ih]

theorem setStatus_getElem? (l : List TestStep) (i : Nat) (st : StepStatus) :
    (setStatus l i st)[i]? = l[i]?.map (fun a => { a with status := st }) := by
  induction l generalizing i with
  | nil => cases i <;> rfl
  | cons s rest ih =>
    cases i with
    | zero => simp [setStatus]
    | succ n => simpa [setStatus] using ih n

theorem completePending_getElem? (l : List TestStep) (i : Nat) :
    (completePending l i)[i]? =
      l[i]?.map (fun a =>
        if a.status = StepStatus.pending then { a with status := StepStatus.completed } else a) := by
  induction l generalizing i with
  | nil => cases i <;> rfl
  | cons s rest ih =>
    cases i with
    | zero => simp [completePending]
    | succ n => simpa [completePending] using ih n

theorem foldl_append_map (f : PythonTestStep → TestStep) :
    ∀ (l : List PythonTestStep) (acc : List TestStep),
      l.foldl (fun a x => a ++ [f x]) acc = acc ++ l.map f := by
  intro l
  induction l with
  | nil => intro acc; simp
  | cons x xs ih => intro acc; simp [ih, List.append_assoc]

theorem create_test_steps_eq (steps : List PythonTestStep) :
    create_test_steps steps =
      TestStep.mk "Start Python test" StepStatus.pending ::
        steps.map (fun st => TestStep.mk st.label StepStatus.pending) := by
  simpa [create_test_steps] using
    foldl_append_map (fun st => TestStep.mk st.label StepStatus.pending) steps
      [TestStep.mk "Start Python test" StepStatus.pending]

theorem next_step_cursor (s : PyCaseState) (h : s.cursor < s.test_steps.length) :
    (next_step s).cursor = s.cursor + 1 := by
  simp [next_step, h]

theorem next_step_length (s : PyCaseState) :
    (next_step s).test_steps.length = s.test_steps.length := by
  unfold next_step
  split <;> simp [completePending_length]

/-- Claim C3: dispatching the event sequence `test_start`, `step_success`,
`step_success`, `test_stop` to a fresh test case instance moves the step
cursor forward exactly three times (to index 3) before the run is finalized,
and the `test_start` event advances the cursor from the synthetic start step
(index 0) to the first real step (index 1); the final `test_stop` does not
move the cursor. -/
theorem event_sequence_moves_cursor_three_times (test : PythonTest)
    (h : 2 ≤ test.steps.length) :
    (initState test).cursor = 0
  ∧ (test_start_h (initState test)).cursor = 1
  ∧ (step_success_h (test_start_h (initState test))).cursor = 2
  ∧ (step_success_h (step_success_h (test_start_h (initState test)))).cursor = 3
  ∧ (test_stop_h (step_success_h (step_success_h (test_start_h (initState test))))).cursor = 3
    := by
  have hlen : (initState test).test_steps.length = test.steps.length + 1 := by
    simp [initState, create_test_steps_eq]
  have h0 : (initState test).cursor = 0 := rfl
  have l0 : (initState test).cursor < (initState test).test_steps.length := by
    rw [h0, hlen]; omega
  have c1 : (test_start_h (initState test)).cursor = 1 := by
    rw [test_start_h, next_step_cursor _ l0, h0]
  have len1 : (test_start_h (initState test)).test_steps.length = test.steps.length + 1 := by
    rw [test_start_h, next_step_length, hlen]
  have l1 : (test_start_h (initState test)).cursor <
      (test_start_h (initState test)).test_steps.length := by
    rw [c1, len1]; omega
  have c2 : (step_success_h (test_start_h (initState test))).cursor = 2 := by
    rw [step_success_h, next_step_cursor _ l1, c1]
  have len2 : (step_success_h (test_start_h (initState test))).test_steps.length =
      test.steps.length + 1 := by
    rw [step_success_h, next_step_length, len1]
  have l2 : (step_success_h (test_start_h (initState test))).cursor <
      (step_success_h (test_start_h (initState test))).test_steps.length := by
    rw [c2, len2]; omega
  have c3 : (step_success_h (step_success_h (test_start_h (initState test)))).cursor = 3 := by
    rw [step_success_h, next_step_cursor _ l2, c2]
  have c4 : (test_stop_h (step_success_h (step_success_h (test_start_h (initState test))))).cursor
      = 3 := by
    simpa [test_stop_h] using c3
  exact ⟨h0, c1, c2, c3, c4⟩

theorem event_sequence_moves_cursor_three_times_witness :
    (2 ≤ (PythonTest.mk "t" "d" [] [PythonTestStep.mk "a", PythonTestStep.mk "b"]).steps.length)
  ∧ (test_start_h (initState (PythonTest.mk "t" "d" [] [PythonTestStep.mk "a", PythonTestStep.mk "b"]))).cursor = 1 :=
  ⟨by decide,
    (event_sequence_moves_cursor_three_times
      (PythonTest.mk "t" "d" [] [PythonTestStep.mk "a", PythonTestStep.mk "b"])
      (by decide)).2.1⟩

/-- Claim C7: whenever a current step exists (the cursor is inside the step
list), the `step_skipped` handler sets that step's status to NotApplicable —
not Completed — and advances the cursor by exactly one. -/
theorem step_skipped_marks_not_applicable (s : PyCaseState)
    (h : s.cursor < s.test_steps.length) :
    ((step_skipped_h s).test_steps[s.cursor]?).map TestStep.status =
      some StepStatus.notApplicable
  ∧ (step_skipped_h s).cursor = s.cursor + 1 := by
  obtain ⟨a, ha⟩ : ∃ a, s.test_steps[s.cursor]? = some a :=
    ⟨s.test_steps[s.cursor], List.getElem?_eq_some.mpr ⟨h, rfl⟩⟩
  have hlt : s.cursor < (setStatus s.test_steps s.cursor StepStatus.notApplicable).length := by
    simpa [setStatus_length] using h
  constructor
  · have hsteps : (step_skipped_h s).test_steps =
        completePending (setStatus s.test_steps s.cursor StepStatus.notApplicable) s.cursor := by
      simp [step_skipped_h, next_step, hlt]
    rw [hsteps, completePending_getElem?, setStatus_getElem?, ha]
    simp
  · simp [step_skipped_h, next_step, hlt]

theorem step_skipped_marks_not_applicable_witness :
    ((initState (PythonTest.mk "t" "d" [] [PythonTestStep.mk "a"])).cursor <
      (initState (PythonTest.mk "t" "d" [] [PythonTestStep.mk "a"])).test_steps.length)
  ∧ (step_skipped_h (initState (PythonTest.mk "t" "d" [] [PythonTestStep.mk "a"]))).cursor =
      (initState (PythonTest.mk "t" "d" [] [PythonTestStep.mk "a"])).cursor + 1 :=
  ⟨by decide,
    (step_skipped_marks_not_applicable
      (initState (PythonTest.mk "t" "d" [] [PythonTestStep.mk "a"])) (by decide)).2⟩

/-- Claim C8: once `test_stop` has been processed (setting the
`test_stop_called` flag), a subsequent `stop` call performs no further step
completion: processing `test_stop` followed by `stop` yields exactly the same
state as processing `test_stop` alone. -/
theorem stop_after_test_stop_is_identity (s : PyCaseState) :
    stop_h (test_stop_h s) = test_stop_h s := by
  simp [stop_h, test_stop_h]

theorem regex_search_tc_eq_spec : ∀ cs, regex_search_tc cs = canonical_token_spec cs := by
  intro cs
  induction cs with
  | nil => rfl
  | cons c cs ih =>
    cases hb : tcTitleChars.isPrefixOf (c :: cs) with
    | true => simp [regex_search_tc, canonical_token_spec, hb, List.find?_cons_of_pos]
    | false =>
      have hfind : List.find? (fun t => tcTitleChars.isPrefixOf t) ((c :: cs) :: cs.tails) =
          List.find? (fun t => tcTitleChars.isPrefixOf t) cs.tails :=
        List.find?_cons_of_neg _ (by simp [hb])
      simp only [regex_search_tc, hb, Bool.false_eq_true, if_false, ih, canonical_token_spec,
        List.tails, hfind]

/-- Claim C4: the identifier extraction of the factory returns exactly the
canonical test-id token of the metadata name (the first token starting with
`TC-` and continuing up to whitespace or a closing bracket, whether or not it
is bracketed in the source text), and returns the full name unchanged —
including the empty name — when no such token occurs. -/
theorem test_identifier_extracts_canonical_token (name : String) :
    test_identifier name =
      (match canonical_token_spec name.toList with
       | some tok => String.mk tok
       | none => name)
  ∧ test_identifier "[TC-ABC-1.2] Foo" = "TC-ABC-1.2"
  ∧ test_identifier "TC-ABC-1.2 Foo" = "TC-ABC-1.2"
  ∧ test_identifier "Some other test" = "Some other test"
  ∧ test_identifier "" = "" := by
  refine ⟨?_, by decide, by decide, by decide, rfl⟩
  rw [test_identifier, regex_search_tc_eq_spec]

theorem sub_aux_filter (cs : List Char) :
    ∀ b, (sub_aux b cs).filter Char.isAlphanum = cs.filter Char.isAlphanum := by
  induction cs with
  | nil => intro b; rfl
  | cons c cs ih =>
    intro b
    by_cases h : c.isAlphanum = true
    · simp [sub_aux, h, ih]
    · have h2 : Char.isAlphanum '_' = false := by decide
      have h3 : c.isAlphanum = false := by simpa using h
      cases b <;> simp [sub_aux, h3, ih, h2]

theorem sub_aux_true_head (cs : List Char) :
    ∀ x, (sub_aux true cs).head? = some x → x.isAlphanum = true := by
  induction cs with
  | nil => intro x hx; simp [sub_aux] at hx
  | cons c cs ih =>
    intro x hx
    by_cases h : c.isAlphanum = true
    · simp [sub_aux, h] at hx
      rw [← hx]
      exact h
    · have h3 : c.isAlphanum = false := by simpa using h
      simp [sub_aux, h3] at hx
      exact ih x hx

theorem sub_aux_chain (cs : List Char) :
    ∀ b, List.Chain' (fun a d => a.isAlphanum = true ∨ d.isAlphanum = true) (sub_aux b cs) := by
  induction cs with
  | nil => intro b; simp [sub_aux]
  | cons c cs ih =>
    intro b
    by_cases h : c.isAlphanum = true
    · have hout : sub_aux b (c :: cs) = c :: sub_aux false cs := by
        simp [sub_aux, h]
      rw [hout]
      exact List.chain'_cons'.mpr ⟨fun y _ => Or.inl h, ih false⟩
    · have h3 : c.isAlphanum = false := by simpa using h
      cases b with
      | true => simpa [sub_aux, h3] using ih true
      | false =>
        have hout : sub_aux false (c :: cs) = '_' :: sub_aux true cs := by
          simp [sub_aux, h3]
        rw [hout]
        refine List.chain'_cons'.mpr ⟨fun y hy => ?_, ih true⟩
        exact Or.inr (sub_aux_true_head cs y (Option.mem_def.mp hy))

theorem sub_aux_mem (cs : List Char) :
    ∀ b x, x ∈ sub_aux b cs → x.isAlphanum = true ∨ x = '_' := by
  induction cs with
  | nil => intro b x hx; simp [sub_aux] at hx
  | cons c cs ih =>
    intro b x hx
    by_cases h : c.isAlphanum = true
    · simp [sub_aux, h] at hx
      rcases hx with rfl | hx
      · exact Or.inl h
      · exact ih false x hx
    · have h3 : c.isAlphanum = false := by simpa using h
      cases b with
      | true =>
        simp [sub_aux, h3] at hx
        exact ih true x hx
      | false =>
        simp [sub_aux, h3] at hx
        rcases hx with rfl | hx
        · exact Or.inr rfl
        · exact ih true x hx

/-- Claim C5: class-name derivation is a pure function of the identifier that
replaces every maximal run of non-alphanumeric characters with a single `_`:
the example `TC-ABC-1.2` maps to `TC_ABC_1_2`; alphanumeric characters are
preserved in order, every produced character is alphanumeric or `_`, and no
two adjacent characters of the output are both non-alphanumeric (each run
collapses to exactly one separator). -/
theorem class_name_collapses_runs :
    class_name "TC-ABC-1.2" = "TC_ABC_1_2"
  ∧ (∀ s : List Char, (sub_non_alnum s).filter Char.isAlphanum = s.filter Char.isAlphanum)
  ∧ (∀ s : List Char, ∀ x ∈ sub_non_alnum s, x.isAlphanum = true ∨ x = '_')
  ∧ (∀ s : List Char,
      List.Chain' (fun a d => a.isAlphanum = true ∨ d.isAlphanum = true) (sub_non_alnum s)) :=
  ⟨by decide, fun s => sub_aux_filter s false, fun s x hx => sub_aux_mem s false x hx,
    fun s => sub_aux_chain s false⟩

theorem class_name_collapses_runs_witness :
    ('_' ∈ sub_non_alnum ("a-b".toList))
  ∧ (Char.isAlphanum '_' = true ∨ '_' = '_') :=
  ⟨by decide, class_name_collapses_runs.2.2.1 ("a-b".toList) '_' (by decide)⟩

/-- Claim C6: `create_test_steps` for metadata steps `[s1, ..., sn]` yields a
step list of length `n + 1` whose first element is the synthetic start step
and whose element `i + 1` carries the label of `si`, preserving the metadata
order verbatim (for `n = 0` only the synthetic step remains). -/
theorem create_test_steps_structure (steps : List PythonTestStep) :
    (create_test_steps steps).length = steps.length + 1
  ∧ (create_test_steps steps)[0]? = some (TestStep.mk "Start Python test" StepStatus.pending)
  ∧ ∀ i, i < steps.length →
      ((create_test_steps steps)[i + 1]?).map TestStep.label =
        (steps[i]?).map PythonTestStep.label := by
  rw [create_test_steps_eq]
  refine ⟨by simp, by simp, fun i hi => ?_⟩
  rw [List.getElem?_cons_succ, List.getElem?_map]
  cases steps[i]? <;> rfl

theorem create_test_steps_structure_witness :
    (0 < ([PythonTestStep.mk "a"] : List PythonTestStep).length)
  ∧ ((create_test_steps [PythonTestStep.mk "a"])[0 + 1]?).map TestStep.label =
      (([PythonTestStep.mk "a"] : List PythonTestStep)[0]?).map PythonTestStep.label :=
  ⟨by decide, (create_test_steps_structure [PythonTestStep.mk "a"]).2.2 0 (by decide)⟩

/-- Claim C10: the type synthesized by `class_factory` stores the version
argument only as `python_test_version`: the metadata `version` field is the
constant `0.0.1` for every argument, `public_id` and `title` both equal the
extracted identifier, and every other attribute of the synthesized type is
independent of the version argument. -/
theorem class_factory_version_fields (test : PythonTest) (v : String) :
    (class_factory test v).python_test_version = v
  ∧ (class_factory test v).metadata.version = "0.0.1"
  ∧ (class_factory test v).metadata.public_id = test_identifier test.name
  ∧ (class_factory test v).metadata.title = (class_factory test v).metadata.public_id
  ∧ (∀ w : String,
      (class_factory test w).type_name = (class_factory test v).type_name
    ∧ (class_factory test w).python_test = (class_factory test v).python_test
    ∧ (class_factory test w).chip_tool_test_identifier =
        (class_factory test v).chip_tool_test_identifier
    ∧ (class_factory test w).metadata = (class_factory test v).metadata) :=
  ⟨rfl, rfl, rfl, rfl, fun _ => ⟨rfl, rfl, rfl, rfl⟩⟩

/-- Claim C1 counterexample: dispatching the polled event name `bogus_event`,
which is outside the fixed event vocabulary, raises a generic
`AttributeError` — it does not fail with the `ProtocolError` the claim
requires. -/
theorem dispatch_unknown_is_attribute_error_not_protocol :
    ("bogus_event" ∈ event_vocabulary → False)
  ∧ call_function_from_name "bogus_event" = Except.error (PyError.attributeError "bogus_event")
  ∧ isProtocolError (call_function_from_name "bogus_event") = false :=
  ⟨by decide, by rfl, by decide⟩

/-- Claim C1 (amended): dispatching a polled event whose name is not an
attribute of the test case instance is never silently ignored, but it raises
a generic `AttributeError` (and a non-callable attribute a `TypeError`)
rather than failing the run with a `ProtocolError`; no `ProtocolError` is
produced by the code. -/
theorem dispatch_unknown_raises_attribute_error (func_name : String)
    (h : instance_getattr func_name = none) :
    call_function_from_name func_name = Except.error (PyError.attributeError func_name)
  ∧ isProtocolError (call_function_from_name func_name) = false := by
  simp [call_function_from_name, h, isProtocolError]

theorem dispatch_unknown_raises_attribute_error_witness :
    (instance_getattr "nonexistent_handler" = none)
  ∧ call_function_from_name "nonexistent_handler" =
      Except.error (PyError.attributeError "nonexistent_handler") :=
  ⟨by decide, (dispatch_unknown_raises_attribute_error "nonexistent_handler" (by decide)).1⟩

/-- Claim C2 counterexample: when the `BaseManager(...)` constructor raises —
an exception while setting up the channel — the `finally` clause references
the never-assigned local `manager` and raises `NameError`, so the manager is
shut down zero times, not exactly once; likewise a failing `manager.start()`
leaves the instance without a `shutdown` attribute and the `finally` clause
raises `AttributeError`. -/
theorem execute_setup_failure_skips_shutdown :
    (execute_model (some ExecStage.managerCtor)).1.shutdown_calls = 0
  ∧ (execute_model (some ExecStage.managerCtor)).2 = TeardownOutcome.nameError
  ∧ (execute_model (some ExecStage.managerStart)).1.shutdown_calls = 0
  ∧ (execute_model (some ExecStage.managerStart)).2 = TeardownOutcome.attributeError := by
  decide

/-- Claim C2 (amended): on every exit path reached after `manager.start()`
completed — normal completion of the drain loop, failure to create the hooks
proxy, failure to launch the runner process, or an exception while draining
events — the event channel manager is shut down exactly once; when channel
setup itself fails before `start()` completes, the `finally` clause raises a
secondary error instead and shutdown never runs. -/
theorem execute_shutdown_exactly_once_after_start (fail : Option ExecStage)
    (h : fail = none ∨ fail = some ExecStage.hooksCreate ∨
      fail = some ExecStage.runnerLaunch ∨ fail = some ExecStage.drainLoop) :
    (execute_model fail).1.shutdown_calls = 1
  ∧ (execute_model fail).2 = TeardownOutcome.shutdownOk := by
  rcases h with h | h | h | h <;> subst h <;> decide

theorem execute_shutdown_exactly_once_after_start_witness :
    ((some ExecStage.runnerLaunch : Option ExecStage) = none ∨
      (some ExecStage.runnerLaunch : Option ExecStage) = some ExecStage.hooksCreate ∨
      (some ExecStage.runnerLaunch : Option ExecStage) = some ExecStage.runnerLaunch ∨
      (some ExecStage.runnerLaunch : Option ExecStage) = some ExecStage.drainLoop)
  ∧ (execute_model (some ExecStage.runnerLaunch)).1.shutdown_calls = 1 :=
  ⟨Or.inr (Or.inr (Or.inl rfl)),
    (execute_shutdown_exactly_once_after_start (some ExecStage.runnerLaunch)
      (Or.inr (Or.inr (Or.inl rfl)))).1⟩

theorem parse_fold_spec (parse_python_test : String → Except String PythonTest)
    (python_test_version : String) :
    ∀ (files : List String) (suite : MatterSuiteDeclaration) (logs : List String),
      files.foldl (parse_fold_step parse_python_test python_test_version) (suite, logs) =
        ({ suite with
            test_cases := suite.test_cases ++ files.filterMap (fun f =>
              match parse_python_test f with
              | Except.ok t => some (PythonCaseDeclaration.mk t python_test_version)
              | Except.error _ => none) },
         logs ++ files.filterMap (fun f =>
            match parse_python_test f with
            | Except.error e => some (log_parse_error f e)
            | Except.ok _ => none)) := by
  intro files
  induction files with
  | nil => intro suite logs; simp
  | cons f fs ih =>
    intro suite logs
    cases hf : parse_python_test f with
    | ok t =>
      simp only [List.foldl_cons, parse_fold_step, parse_python_test_to_test_case_declaration,
        hf, Except.map, add_test_case, ih, List.filterMap_cons, List.append_assoc,
        List.singleton_append]
    | error e =>
      simp only [List.foldl_cons, parse_fold_step, parse_python_test_to_test_case_declaration,
        hf, Except.map, ih, List.filterMap_cons, List.append_assoc, List.singleton_append]

/-- Claim C9: for every parser collaborator and every list of test files,
`_parse_all_sdk_python_tests` returns exactly the Automated suite, holding
one test-case declaration per file whose parse succeeded, in input order; a
file whose parse raises `PythonTestParserException` is logged and skipped
without aborting the remaining files, and only the failed files are excluded
from the suite. -/
theorem parse_all_returns_automated_suite
    (parse_python_test : String → Except String PythonTest)
    (files : List String) (version : String) :
    parse_all_sdk_python_tests parse_python_test files version =
      ([{ init_test_suites version with
          test_cases := files.filterMap (fun f =>
            match parse_python_test f with
            | Except.ok t => some (PythonCaseDeclaration.mk t version)
            | Except.error _ => none) }],
       files.filterMap (fun f =>
          match parse_python_test f with
          | Except.error e => some (log_parse_error f e)
          | Except.ok _ => none)) := by
  unfold parse_all_sdk_python_tests
  rw [parse_fold_spec]
  simp [init_test_suites]

end CertBridge
